import Mathlib

/-!
Shallow embedding of the rendering core of Directus3D (deferred renderer,
cascaded shadow maps, pipeline-state cache) together with theorems about it.

Real numbers of the C++ source (`float`) are modelled as rationals; machine
pointers that may be null are modelled as `Option`; a null-pointer
dereference is modelled as `Except.error ()`.
-/

namespace Directus

/-- A 3-component vector, as `Directus::Math::Vector3` (components as ℚ). -/
structure V3 where
  x : ℚ
  y : ℚ
  z : ℚ
deriving DecidableEq, Repr

/-- A 4-component vector, as `Directus::Math::Vector4` (components as ℚ). -/
structure V4 where
  x : ℚ
  y : ℚ
  z : ℚ
  w : ℚ
deriving DecidableEq, Repr

/-! ## Shadow cascade projection (Light::ShadowMap_ComputeProjectionMatrix) -/

/-- The hardcoded half-extent table of `ShadowMap_ComputeProjectionMatrix`:
`extents` is 10 for cascade 0, 45 for cascade 1, 90 for cascade 2
(and stays 0 for any other index, exactly as in the source where the
local variable is initialized to 0 and only the three `if`s assign it). -/
def extentsOf (index : Nat) : ℚ :=
  if index = 0 then 10 else if index = 1 then 45 else if index = 2 then 90 else 0

/-- One coordinate of the texel-snap `v /= w; v.Floor(); v *= w`. -/
def snapCoord (w x : ℚ) : ℚ := (⌊x / w⌋ : ℚ) * w

/-- Componentwise texel-snap of a vector. -/
def snapV3 (w : ℚ) (v : V3) : V3 := ⟨snapCoord w v.x, snapCoord w v.y, snapCoord w v.z⟩

/-- The two corners (min, max) of the snapped cascade bounding box computed by
`Light::ShadowMap_ComputeProjectionMatrix`: `center` is the camera position
transformed into light view space (`m_lastPosCamera * m_viewMatrix`), the box
is `center ± extents` in every axis, and both corners are divided by
`fWorldUnitsPerTexel = extents * 2 / m_shadowMapResolution`, floored and
multiplied back. -/
def shadowMapCorners (index : Nat) (center : V3) (res : ℚ) : V3 × V3 :=
  let e := extentsOf index
  let mn : V3 := ⟨center.x - e, center.y - e, center.z - e⟩
  let mx : V3 := ⟨center.x + e, center.y + e, center.z + e⟩
  let w := e * 2 / res
  (snapV3 w mn, snapV3 w mx)

/-! ## Light::ClampRotation -/

/-- `Light::ClampRotation` on the Euler angles of the light transform.
The source reads the rotation once into a local, then runs two independent
`if`s on that local: pitch ≤ 0 sets the rotation to pitch 179 (keeping
yaw/roll), pitch ≥ 180 sets it to pitch 1.  Euler angles are modelled
directly (the quaternion round-trip lives outside this core). -/
def clampRotation (r : V3) : V3 :=
  let r1 := if r.x ≤ (0 : ℚ) then (⟨179, r.y, r.z⟩ : V3) else r
  if r.x ≥ (180 : ℚ) then (⟨1, r.y, r.z⟩ : V3) else r1

/-! ## RHI_PipelineState -/

/-- Modelled from the spec: `RHI_PipelineState.cpp` is missing from the
sources, only the class declaration (`RHI_PipelineState.h`) is present.
Per the spec, each state category carries a cached value and a dirty bit;
a fresh category has nothing cached and is not dirty.  Values are
represented by ids (`Nat`). -/
structure StateCategory where
  cached : Option Nat
  dirty : Bool
deriving DecidableEq, Repr

/-- Modelled from the spec: a setter that supplies a value identical to the
cached value is a no-op (no dirty flag set); otherwise it stores the value
and sets the category's dirty flag. -/
def setCategory (v : Nat) (c : StateCategory) : StateCategory :=
  if c.cached = some v then c else { cached := some v, dirty := true }

/-- Modelled from the spec: on `Bind()`, a dirty category is committed to the
device exactly once and its dirty flag is cleared; a clean category is not
committed.  Returns the updated category and the number of device commits
it caused. -/
def commitCategory (c : StateCategory) : StateCategory × Nat :=
  if c.dirty then ({ c with dirty := false }, 1) else (c, 0)

/-- Modelled from the spec: `Bind()` walks all state categories in a fixed
order, committing the dirty ones.  Returns the updated categories and the
total number of device commits issued. -/
def bindPipeline (p : List StateCategory) : List StateCategory × Nat :=
  (p.map (fun c => (commitCategory c).1), (p.map (fun c => (commitCategory c).2)).sum)

/-! ## Frustum culling (Renderer::IsInViewFrustrum) -/

/-- The three-valued classification returned by `Frustrum::CheckSphere`. -/
inductive Intersection where
  | Outside
  | Intersects
  | Inside
deriving DecidableEq, Repr

/-- The cached state of the `Frustrum` object: the view/projection matrices
it was last constructed from (matrices are compared only for equality here,
so they are represented by ids) and the six derived clip planes, of an
abstract type `P`. -/
structure FrustrumCache (P : Type) where
  projMatrix : Nat
  viewMatrix : Nat
  planes : P

/-- The slice of `Renderer` state that `IsInViewFrustrum` touches: the
cached frustum, the current camera matrices `mProjection`/`mView` and the
far plane. -/
structure CullState (P : Type) where
  frustrum : FrustrumCache P
  mProjection : Nat
  mView : Nat
  farPlane : ℚ

/-- `Renderer::IsInViewFrustrum`: if the frustum's stored projection or view
matrix differs from the camera's current one, the six planes are rebuilt
(`SetProjectionMatrix`, `SetViewMatrix`, `ConstructFrustum(m_farPlane)`,
abstracted by `construct`); the query radius is
`max (max |extent.x| |extent.y|) |extent.z|` and the function returns
`false` exactly when `CheckSphere` (abstracted by `checkSphere`) classifies
the sphere as `Outside`. -/
def isInViewFrustrum {P : Type} (construct : Nat → Nat → ℚ → P)
    (checkSphere : P → V3 → ℚ → Intersection)
    (s : CullState P) (center extent : V3) : CullState P × Bool :=
  let s1 :=
    if s.frustrum.projMatrix ≠ s.mProjection ∨ s.frustrum.viewMatrix ≠ s.mView then
      { s with frustrum := ⟨s.mProjection, s.mView, construct s.mProjection s.mView s.farPlane⟩ }
    else s
  let radius := max (max |extent.x| |extent.y|) |extent.z|
  (s1, if checkSphere s1.frustrum.planes center radius = Intersection.Outside then false else true)

/-! ## Renderables and the per-object pass steps (Renderer.cpp) -/

/-- A mesh; only what the passes read. -/
structure Mesh where
  indexCount : Nat
deriving DecidableEq, Repr

/-- A `MeshFilter` component: its mesh pointer (may be null) and whether
`SetBuffers()` succeeds. -/
structure MeshFilter where
  mesh : Option Mesh
  buffersOk : Bool
deriving DecidableEq, Repr

/-- A material; only what the geometry pass reads. -/
structure Material where
  id : Nat
  opacity : ℚ
deriving DecidableEq, Repr

/-- A `MeshRenderer` component: its material pointer (may be null) and the
shadow flags. -/
structure MeshRenderer where
  material : Option Material
  castShadows : Bool
  receiveShadows : Bool
deriving DecidableEq, Repr

/-- A renderable `GameObject` as seen by the passes: `GetComponent` returns
null (`none`) for an absent component; `hasSkybox` is whether
`GetComponent<Skybox>()` is non-null. -/
structure GameObject where
  meshFilter : Option MeshFilter
  meshRenderer : Option MeshRenderer
  hasSkybox : Bool
deriving DecidableEq, Repr

/-- The per-object body of `Renderer::GBufferPass` (lines 354-392), for the
material `currentMaterial` of the enclosing loop.  The source first calls
`meshFilter->GetMesh()` and `meshRenderer->GetMaterial()` and only then
tests `!meshFilter || !mesh || !meshRenderer || !material`; dereferencing a
null component is `Except.error ()`.  `Except.ok false` means the object is
skipped by a `continue`; `Except.ok true` means a draw was issued. -/
def gbufferStep (currentMaterialId : Nat) (inFrustum : GameObject → Bool)
    (go : GameObject) : Except Unit Bool :=
  match go.meshFilter with
  | none => Except.error ()
  | some mf =>
    let mesh := mf.mesh
    match go.meshRenderer with
    | none => Except.error ()
    | some mr =>
      match mesh, mr.material with
      | none, _ => Except.ok false
      | some _, none => Except.ok false
      | some _, some material =>
        if material.id ≠ currentMaterialId then Except.ok false
        else if material.opacity < 1 then Except.ok false
        else if ¬ inFrustum go then Except.ok false
        else if mf.buffersOk then Except.ok true
        else Except.ok false

/-- The per-object body of `Renderer::DirectionalLightDepthPass`
(lines 301-323).  The source calls `meshFilter->GetMesh()` with no null
check on the filter, skips on a null mesh, then evaluates
`gameObject->GetComponent<Skybox>() || !meshRenderer->GetCastShadows()`
(short-circuit: the renderer is dereferenced only when there is no skybox
component), and finally draws if `SetBuffers()` succeeds. -/
def shadowStep (go : GameObject) : Except Unit Bool :=
  match go.meshFilter with
  | none => Except.error ()
  | some mf =>
    match mf.mesh with
    | none => Except.ok false
    | some _ =>
      if go.hasSkybox then Except.ok false
      else
        match go.meshRenderer with
        | none => Except.error ()
        | some mr =>
          if ¬ mr.castShadows then Except.ok false
          else if mf.buffersOk then Except.ok true
          else Except.ok false

/-! ## The frame orchestrator (Renderer::Render) -/

/-- The engine-mode flag read by `GET_ENGINE_MODE`. -/
inductive EngineMode where
  | Editor_Idle
  | Editor_Playing
  | Game
deriving DecidableEq, Repr

/-- The shadow-mode of a light (`GetShadowType()`). -/
inductive ShadowType where
  | No_Shadows
  | Hard_Shadows
  | Soft_Shadows
deriving DecidableEq, Repr

/-- The camera as `Render` reads it: its clear color. -/
structure Camera where
  clearColor : V4
deriving DecidableEq, Repr

/-- The directional light as `Render` reads it: its shadow mode. -/
structure DirLight where
  shadowType : ShadowType
deriving DecidableEq, Repr

/-- One step of the render trace; soft-fail paths clear with an explicit
color and present. -/
inductive RenderEvent where
  | acquire
  | clear (color : V4)
  | shadowDepth
  | gbuffer
  | deferred
  | postProcess
  | debug
  | present
deriving DecidableEq, Repr

/-- The slice of `Renderer` state that `Render` drives: the scene inputs
(main camera, directional light list, renderable list, engine mode) and the
cached/statistics fields (`m_camera`, `m_directionalLight`,
`m_meshesRendered`, `m_renderedMeshesCount`). -/
structure RendererState where
  sceneMainCamera : Option Camera
  lightsDirectional : List DirLight
  renderables : List GameObject
  engineMode : EngineMode
  camera : Option Camera
  directionalLight : Option DirLight
  meshesRendered : Nat
  renderedMeshesCount : Nat
deriving DecidableEq, Repr

/-- `Renderer::AcquirePrerequisites`: with a scene camera, cache it and the
first directional light (or null when the list is empty); with no scene
camera, null out the cached camera and directional light. -/
def acquirePrerequisites (s : RendererState) : RendererState :=
  match s.sceneMainCamera with
  | some c => { s with camera := some c, directionalLight := s.lightsDirectional.head? }
  | none => { s with camera := none, directionalLight := none }

/-- `Renderer::Render` (lines 148-202), returning the updated state and the
trace of passes.  `StartCalculatingStats` zeroes the working counter, then
prerequisites are acquired; a null camera clears to black and presents, an
empty renderable list clears to the camera's clear color and presents (both
early returns skip `StopCalculatingStats`).  Otherwise: the shadow-depth
pass runs when a directional light exists and its shadow type is not
`No_Shadows`, then the geometry-buffer, deferred and post-process passes,
the debug (gizmo) pass only in `Editor_Idle` mode, and present;
`StopCalculatingStats` publishes the mesh counter.  The number of meshes
the geometry pass draws depends on the shader/material pools, abstracted
as `gbufferDraws`. -/
def render (gbufferDraws : List GameObject → Nat) (s0 : RendererState) :
    RendererState × List RenderEvent :=
  let s := acquirePrerequisites { s0 with meshesRendered := 0 }
  match s.camera with
  | none => (s, [RenderEvent.acquire, RenderEvent.clear ⟨0, 0, 0, 1⟩, RenderEvent.present])
  | some cam =>
    if s.renderables.isEmpty then
      (s, [RenderEvent.acquire, RenderEvent.clear cam.clearColor, RenderEvent.present])
    else
      let shadowEvents :=
        match s.directionalLight with
        | some dl =>
          if dl.shadowType ≠ ShadowType.No_Shadows then [RenderEvent.shadowDepth] else []
        | none => []
      let s := { s with meshesRendered := gbufferDraws s.renderables }
      let debugEvents :=
        if s.engineMode = EngineMode.Editor_Idle then [RenderEvent.debug] else []
      let s := { s with renderedMeshesCount := s.meshesRendered }
      (s, [RenderEvent.acquire] ++ shadowEvents ++
          [RenderEvent.gbuffer, RenderEvent.deferred, RenderEvent.postProcess] ++
          debugEvents ++ [RenderEvent.present])

/-- `Renderer::GetRenderedMeshesCount`. -/
def getRenderedMeshesCount (s : RendererState) : Nat := s.renderedMeshesCount

/-! ## Renderer::SetResolution -/

/-- The resolution-dependent state of the renderer: the stored resolution,
the viewport, and the dimensions used to (re)create the geometry buffer,
the full-screen quad and the two ping-pong render textures. -/
structure ResolutionState where
  width : Int
  height : Int
  viewport : Int × Int
  gbufferDims : Int × Int
  quadDims : Int × Int
  pingDims : Int × Int
  pongDims : Int × Int
deriving DecidableEq, Repr

/-- `Renderer::SetResolution` (lines 204-231): a zero width or height
returns immediately; otherwise the stored resolution, the viewport and all
four render targets are recreated at the new size. -/
def setResolution (w h : Int) (s : ResolutionState) : ResolutionState :=
  if w = 0 ∨ h = 0 then s
  else
    { width := w, height := h, viewport := (w, h), gbufferDims := (w, h),
      quadDims := (w, h), pingDims := (w, h), pongDims := (w, h) }

/-! ## The Light component (Light.cpp) -/

/-- The light kind (`LightType`). -/
inductive LightType where
  | Directional
  | Point
  | Spot
deriving DecidableEq, Repr

/-- `LightType` to cascade / shadow-map count, as computed inside
`Light::ShadowMap_Create`: 3 cascades for a directional light, 6 points of
view for a point light, 1 for a spot light. -/
def cascadeCount : LightType → Nat
  | LightType.Directional => 3
  | LightType.Point => 6
  | LightType.Spot => 1

/-- The state of a `Light` component that the shadow-map bookkeeping
touches.  Shadow-map render textures are `new`-allocated; allocation is
modelled by fresh ids drawn from `nextTexId`.  `projMatrices` holds the
snapped box corners each `Matrix::CreateOrthoOffCenterLH` call was built
from. -/
structure LightState where
  lightType : LightType
  castShadows : Bool
  shadowMapCount : Nat
  shadowMapResolution : Nat
  shadowMaps : List Nat
  frustums : List Nat
  projMatrices : List (V3 × V3)
  isDirty : Bool
  lastPosLight : V3
  lastRotLight : V3
  lastPosCamera : V3
  nextTexId : Nat
deriving DecidableEq, Repr

/-- The `Light` constructor state: a point light that casts shadows, with
no shadow maps, frustums or projection matrices created yet. -/
def LightState.initial : LightState :=
  { lightType := LightType.Point, castShadows := true, shadowMapCount := 0,
    shadowMapResolution := 0, shadowMaps := [], frustums := [], projMatrices := [],
    isDirty := true, lastPosLight := ⟨0, 0, 0⟩, lastRotLight := ⟨0, 0, 0⟩,
    lastPosCamera := ⟨0, 0, 0⟩, nextTexId := 0 }

/-- `Light::ShadowMap_Destroy`: clears the shadow-map and frustum arrays
(and, notably, not the projection-matrix array). -/
def shadowMapDestroy (s : LightState) : LightState :=
  { s with shadowMaps := [], frustums := [] }

/-- `Light::ShadowMap_Create(force)`: returns unchanged unless forced or
the shadow-map array is empty; otherwise destroys and recreates
`cascadeCount` shadow maps (fresh render textures at the settings
resolution `settingsRes`) and the same number of fresh frustums. -/
def shadowMapCreate (settingsRes : Nat) (force : Bool) (s : LightState) : LightState :=
  if ¬ force ∧ ¬ s.shadowMaps.isEmpty then s
  else
    let s := shadowMapDestroy s
    let cnt := cascadeCount s.lightType
    { s with shadowMapCount := cnt, shadowMapResolution := settingsRes,
             shadowMaps := (List.range cnt).map (fun i => s.nextTexId + i),
             frustums := (List.range cnt).map (fun i => i),
             nextTexId := s.nextTexId + cnt }

/-- `Light::OnInitialize`: `ShadowMap_Create(true)`. -/
def lightOnInitialize (settingsRes : Nat) (s : LightState) : LightState :=
  shadowMapCreate settingsRes true s

/-- `Light::OnStart`: `ShadowMap_Create(false)`. -/
def lightOnStart (settingsRes : Nat) (s : LightState) : LightState :=
  shadowMapCreate settingsRes false s

/-- `Light::SetLightType`: stores the type, marks dirty, forces shadow-map
recreation. -/
def setLightType (settingsRes : Nat) (t : LightType) (s : LightState) : LightState :=
  shadowMapCreate settingsRes true { s with lightType := t, isDirty := true }

/-- `Light::SetCastShadows`: the source reads
`if (m_castShadows = castShadows) return;` — an assignment, not a
comparison — so the flag is always overwritten with the argument and the
early return is taken exactly when the argument is true; only a false
argument reaches `ShadowMap_Create(true)`. -/
def setCastShadows (settingsRes : Nat) (v : Bool) (s : LightState) : LightState :=
  let s := { s with castShadows := v }
  if v then s else shadowMapCreate settingsRes true s

/-- `Light::OnTick`.  Non-directional lights return immediately.  A moved
or rotated light records the new transform and marks dirty (the view-matrix
recomputation and rotation clamping act on the transform, not on the arrays
modelled here).  A moved camera records the new position and rebuilds the
projection-matrix array: it is cleared and refilled with one entry per
`m_shadowMapCount`, each computed by `ShadowMap_ComputeProjectionMatrix`
(`camPosLS` is the camera position transformed by the light view matrix).
Finally, when dirty, each existing frustum is reconstructed in place (the
array lengths are untouched). -/
def lightOnTick (lightPos lightRot camPos camPosLS : V3) (s : LightState) : LightState :=
  if s.lightType ≠ LightType.Directional then s
  else
    let s :=
      if s.lastPosLight ≠ lightPos ∨ s.lastRotLight ≠ lightRot then
        { s with lastPosLight := lightPos, lastRotLight := lightRot, isDirty := true }
      else s
    let s :=
      if s.lastPosCamera ≠ camPos then
        { s with lastPosCamera := camPos,
                 projMatrices := (List.range s.shadowMapCount).map
                   (fun i => shadowMapCorners i camPosLS (s.shadowMapResolution : ℚ)),
                 isDirty := true }
      else s
    -- The final block (`if (!m_isDirty) return;` then per-index in-place
    -- `m_frustums[index]->Construct(...)`) alters no field modelled here.
    s

/-- An operation on a `Light`, for stating invariants over arbitrary
operation sequences. -/
inductive LightOp where
  | init (settingsRes : Nat)
  | start (settingsRes : Nat)
  | setType (settingsRes : Nat) (t : LightType)
  | setCast (settingsRes : Nat) (v : Bool)
  | tick (lightPos lightRot camPos camPosLS : V3)
deriving DecidableEq, Repr

/-- Apply one light operation. -/
def applyLightOp (op : LightOp) (s : LightState) : LightState :=
  match op with
  | LightOp.init r => lightOnInitialize r s
  | LightOp.start r => lightOnStart r s
  | LightOp.setType r t => setLightType r t s
  | LightOp.setCast r v => setCastShadows r v s
  | LightOp.tick lp lr cp cls => lightOnTick lp lr cp cls s

/-- Apply a sequence of light operations, oldest first. -/
def applyLightOps (ops : List LightOp) (s : LightState) : LightState :=
  ops.foldl (fun s op => applyLightOp op s) s

/-- The per-cascade array invariant that actually holds: the shadow-map and
frustum arrays have length `cascadeCount` of the current light type, which
also equals `m_shadowMapCount`. -/
def ShadowArraysInv (s : LightState) : Prop :=
  s.shadowMaps.length = cascadeCount s.lightType ∧
  s.frustums.length = cascadeCount s.lightType ∧
  s.shadowMapCount = cascadeCount s.lightType

instance (s : LightState) : Decidable (ShadowArraysInv s) := by
  unfold ShadowArraysInv; infer_instance

/-! ## Helper lemmas -/

/-- Flooring onto the texel grid never moves a coordinate up. -/
lemma snapCoord_le {w : ℚ} (x : ℚ) (hw : 0 < w) : snapCoord w x ≤ x := by
  unfold snapCoord
  have h := Int.floor_le (x / w)
  calc (⌊x / w⌋ : ℚ) * w ≤ x / w * w := mul_le_mul_of_nonneg_right h hw.le
    _ = x := div_mul_cancel₀ x hw.ne'

/-- Flooring onto the texel grid moves a coordinate down by less than one
texel. -/
lemma lt_snapCoord {w : ℚ} (x : ℚ) (hw : 0 < w) : x - w < snapCoord w x := by
  unfold snapCoord
  have h : x / w - 1 < (⌊x / w⌋ : ℚ) := Int.sub_one_lt_floor (x / w)
  have h2 := mul_lt_mul_of_pos_right h hw
  calc x - w = (x / w - 1) * w := by field_simp
    _ < (⌊x / w⌋ : ℚ) * w := h2

/-- The total number of commits issued by `Bind()` equals the number of
dirty categories. -/
lemma bindPipeline_commits (p : List StateCategory) :
    (bindPipeline p).2 = p.countP (fun c => c.dirty) := by
  show (p.map (fun c => (commitCategory c).2)).sum = p.countP (fun c => c.dirty)
  induction p with
  | nil => rfl
  | cons a l ih =>
    rw [List.map_cons, List.sum_cons, List.countP_cons, ih]
    unfold commitCategory
    by_cases h : a.dirty <;> simp [h, Nat.add_comm]

/-- One texel-snapped coordinate `b` of an unsnapped coordinate `a` lies
within one texel (`w`) below `a`. -/
def snappedWithin (w a b : ℚ) : Prop := b ≤ a ∧ a - w < b

/-- A forced `ShadowMap_Create` establishes the array invariant. -/
lemma shadowArraysInv_create (res : Nat) (s : LightState) :
    ShadowArraysInv (shadowMapCreate res true s) := by
  simp [shadowMapCreate, shadowMapDestroy, ShadowArraysInv]

/-- Every light operation preserves the array invariant. -/
lemma shadowArraysInv_applyLightOp (op : LightOp) (s : LightState)
    (h : ShadowArraysInv s) : ShadowArraysInv (applyLightOp op s) := by
  cases op with
  | init r => exact shadowArraysInv_create r s
  | start r =>
    show ShadowArraysInv (shadowMapCreate r false s)
    unfold shadowMapCreate
    split
    · exact h
    · simp [shadowMapDestroy, ShadowArraysInv]
  | setType r t => exact shadowArraysInv_create r _
  | setCast r v =>
    cases v with
    | true => exact h
    | false => exact shadowArraysInv_create r _
  | tick lp lr cp cls =>
    rcases h with ⟨h1, h2, h3⟩
    show ShadowArraysInv (lightOnTick lp lr cp cls s)
    unfold lightOnTick
    dsimp only
    split
    · exact ⟨h1, h2, h3⟩
    · split <;> split <;> exact ⟨h1, h2, h3⟩

/-- The array invariant is preserved by any operation sequence. -/
lemma shadowArraysInv_applyLightOps (ops : List LightOp) (s : LightState)
    (h : ShadowArraysInv s) : ShadowArraysInv (applyLightOps ops s) := by
  induction ops generalizing s with
  | nil => exact h
  | cons op rest ih =>
    exact ih _ (shadowArraysInv_applyLightOp op s h)

/-! ## Claim theorems -/

/-- C2: for every PipelineState category and value, a second identical
setter call is a no-op (it does not set the dirty flag, indeed it changes
nothing), and `Bind()` issues exactly one device commit per dirty category
regardless of how many times the same value was set. -/
theorem c2_idempotent_redundant_binds (c : StateCategory) (v : Nat)
    (p : List StateCategory) :
    setCategory v (setCategory v c) = setCategory v c ∧
    (setCategory v (setCategory v c)).dirty = (setCategory v c).dirty ∧
    (bindPipeline p).2 = p.countP (fun cat => cat.dirty) := by
  have hset : setCategory v (setCategory v c) = setCategory v c := by
    unfold setCategory
    by_cases h : c.cached = some v <;> simp [h]
  exact ⟨hset, by rw [hset], bindPipeline_commits p⟩

/-- C3 counterexample: at cascade index 0, camera-in-light-space position
(1/2, 0, 0) and shadow-map resolution 1, the snapped maximum corner drops
to 0 while the unsnapped maximum corner is 21/2, so the snapped box does
not contain the unsnapped box: flooring the max corner shrinks the
frustum. -/
theorem c3_counterexample :
    (shadowMapCorners 0 ⟨1/2, 0, 0⟩ 1).2.x = 0 ∧
    ¬ ((1 : ℚ)/2 + extentsOf 0 ≤ (shadowMapCorners 0 ⟨1/2, 0, 0⟩ 1).2.x) := by
  simp only [shadowMapCorners, snapV3, snapCoord, extentsOf]
  norm_num

/-- C3 amended: for every cascade index ≤ 2 (so the half-extent table entry
is positive), every center and every positive shadow-map resolution, each
texel-snapped corner coordinate lies within one texel below its unsnapped
value: snapped ≤ unsnapped and unsnapped − worldUnitsPerTexel < snapped.
The box therefore only grows at the min corner (by less than one texel)
and can shrink at the max corner (by less than one texel); it does not in
general contain the unsnapped box. -/
theorem c3_amended (index : Nat) (center : V3) (res : ℚ)
    (hidx : index ≤ 2) (hres : 0 < res) :
    snappedWithin (extentsOf index * 2 / res) (center.x - extentsOf index)
      (shadowMapCorners index center res).1.x ∧
    snappedWithin (extentsOf index * 2 / res) (center.y - extentsOf index)
      (shadowMapCorners index center res).1.y ∧
    snappedWithin (extentsOf index * 2 / res) (center.z - extentsOf index)
      (shadowMapCorners index center res).1.z ∧
    snappedWithin (extentsOf index * 2 / res) (center.x + extentsOf index)
      (shadowMapCorners index center res).2.x ∧
    snappedWithin (extentsOf index * 2 / res) (center.y + extentsOf index)
      (shadowMapCorners index center res).2.y ∧
    snappedWithin (extentsOf index * 2 / res) (center.z + extentsOf index)
      (shadowMapCorners index center res).2.z := by
  have he : 0 < extentsOf index := by
    interval_cases index <;> norm_num [extentsOf]
  have hw : 0 < extentsOf index * 2 / res := by positivity
  simp only [shadowMapCorners, snapV3, snappedWithin]
  exact ⟨⟨snapCoord_le _ hw, lt_snapCoord _ hw⟩, ⟨snapCoord_le _ hw, lt_snapCoord _ hw⟩,
    ⟨snapCoord_le _ hw, lt_snapCoord _ hw⟩, ⟨snapCoord_le _ hw, lt_snapCoord _ hw⟩,
    ⟨snapCoord_le _ hw, lt_snapCoord _ hw⟩, ⟨snapCoord_le _ hw, lt_snapCoord _ hw⟩⟩

/-- Witness for C3 amended at index 0, center (1/2, 0, 0), resolution 1. -/
theorem c3_amended_witness :
    (0 : Nat) ≤ 2 ∧ (0 : ℚ) < 1 ∧
    (snappedWithin (extentsOf 0 * 2 / 1) ((1 : ℚ)/2 - extentsOf 0)
       (shadowMapCorners 0 ⟨1/2, 0, 0⟩ 1).1.x ∧
     snappedWithin (extentsOf 0 * 2 / 1) ((0 : ℚ) - extentsOf 0)
       (shadowMapCorners 0 ⟨1/2, 0, 0⟩ 1).1.y ∧
     snappedWithin (extentsOf 0 * 2 / 1) ((0 : ℚ) - extentsOf 0)
       (shadowMapCorners 0 ⟨1/2, 0, 0⟩ 1).1.z ∧
     snappedWithin (extentsOf 0 * 2 / 1) ((1 : ℚ)/2 + extentsOf 0)
       (shadowMapCorners 0 ⟨1/2, 0, 0⟩ 1).2.x ∧
     snappedWithin (extentsOf 0 * 2 / 1) ((0 : ℚ) + extentsOf 0)
       (shadowMapCorners 0 ⟨1/2, 0, 0⟩ 1).2.y ∧
     snappedWithin (extentsOf 0 * 2 / 1) ((0 : ℚ) + extentsOf 0)
       (shadowMapCorners 0 ⟨1/2, 0, 0⟩ 1).2.z) :=
  ⟨by norm_num, by norm_num, c3_amended 0 ⟨1/2, 0, 0⟩ 1 (by norm_num) (by norm_num)⟩

/-- C8: for every rotation, `ClampRotation` maps a non-positive pitch to
exactly 179 degrees, and the resulting pitch always lies in the open
interval (0, 180). -/
theorem c8_clamp_rotation (r : V3) :
    (r.x ≤ 0 → (clampRotation r).x = 179) ∧
    0 < (clampRotation r).x ∧ (clampRotation r).x < 180 := by
  constructor
  · intro h
    have h2 : ¬ r.x ≥ 180 := by linarith
    simp [clampRotation, h, h2]
  · by_cases h1 : r.x ≤ 0 <;> by_cases h2 : r.x ≥ 180
    · simp only [clampRotation, h1, h2, if_true]
      norm_num
    · simp only [clampRotation, h1, h2, if_true, if_false]
      norm_num
    · simp only [clampRotation, h1, h2, if_true, if_false]
      norm_num
    · simp only [clampRotation, h1, h2, if_false]
      push_neg at h1 h2
      exact ⟨h1, h2⟩

/-- Witness for C8 at pitch −10: the clamped pitch reads 179. -/
theorem c8_clamp_rotation_witness :
    (-10 : ℚ) ≤ 0 ∧ (clampRotation ⟨-10, 30, 0⟩).x = 179 :=
  ⟨by norm_num, (c8_clamp_rotation ⟨-10, 30, 0⟩).1 (by norm_num)⟩

/-- C9: `SetResolution(0, h)` and `SetResolution(w, 0)` leave the stored
resolution, the viewport, the geometry buffer, the full-screen quad and
both ping-pong render textures exactly as they were. -/
theorem c9_resolution_guard (w h : Int) (s : ResolutionState) :
    setResolution 0 h s = s ∧ setResolution w 0 s = s := by
  constructor <;> simp [setResolution]

/-- C1: per frame, `Render()` acquires prerequisites and then, with no
camera, clears to black and presents immediately; with an empty renderable
list, clears to the camera's clear color and presents immediately; and
otherwise runs the shadow-depth pass exactly when a directional light
exists whose shadow mode is not none, then the geometry-buffer, deferred
and post-process passes, the debug pass exactly in editor-idle mode, then
presents. -/
theorem c1_render_pass_order (f : List GameObject → Nat) (s : RendererState) :
    (s.sceneMainCamera = none →
      (render f s).2 =
        [RenderEvent.acquire, RenderEvent.clear ⟨0, 0, 0, 1⟩, RenderEvent.present]) ∧
    (∀ cam, s.sceneMainCamera = some cam → s.renderables = [] →
      (render f s).2 =
        [RenderEvent.acquire, RenderEvent.clear cam.clearColor, RenderEvent.present]) ∧
    (∀ cam, s.sceneMainCamera = some cam → s.renderables ≠ [] →
      (render f s).2 =
        [RenderEvent.acquire] ++
        (match s.lightsDirectional.head? with
          | some dl =>
            if dl.shadowType ≠ ShadowType.No_Shadows then [RenderEvent.shadowDepth] else []
          | none => []) ++
        [RenderEvent.gbuffer, RenderEvent.deferred, RenderEvent.postProcess] ++
        (if s.engineMode = EngineMode.Editor_Idle then [RenderEvent.debug] else []) ++
        [RenderEvent.present]) := by
  refine ⟨?_, ?_, ?_⟩
  · intro h
    simp [render, acquirePrerequisites, h]
  · intro cam hc hr
    simp [render, acquirePrerequisites, hc, hr]
  · intro cam hc hr
    have hre : s.renderables.isEmpty = false := by
      cases hrl : s.renderables with
      | nil => exact absurd hrl hr
      | cons a l => rfl
    cases hL : s.lightsDirectional.head? with
    | none => simp [render, acquirePrerequisites, hc, hre, hL]
    | some dl => simp [render, acquirePrerequisites, hc, hre, hL]

/-- A concrete frame state on the happy path: camera present, one
renderable, one directional light with hard shadows, editor-idle mode. -/
def c1State : RendererState :=
  { sceneMainCamera := some ⟨⟨0, 0, 0, 1⟩⟩,
    lightsDirectional := [⟨ShadowType.Hard_Shadows⟩],
    renderables := [⟨some ⟨some ⟨6⟩, true⟩, some ⟨some ⟨1, 1⟩, true, true⟩, false⟩],
    engineMode := EngineMode.Editor_Idle, camera := none, directionalLight := none,
    meshesRendered := 0, renderedMeshesCount := 0 }

/-- Witness for C1: on the concrete happy-path state the trace is exactly
acquire, shadow-depth, geometry, deferred, post-process, debug, present. -/
theorem c1_render_pass_order_witness :
    (render (fun l => l.length) c1State).2 =
      [RenderEvent.acquire, RenderEvent.shadowDepth, RenderEvent.gbuffer, RenderEvent.deferred,
       RenderEvent.postProcess, RenderEvent.debug, RenderEvent.present] := by
  have h := (c1_render_pass_order (fun l => l.length) c1State).2.2 ⟨⟨0, 0, 0, 1⟩⟩ rfl
    (by simp [c1State])
  simpa [c1State] using h

/-- A renderable that lacks a `MeshFilter` component. -/
def goNoFilter : GameObject := ⟨none, some ⟨some ⟨7, 1⟩, true, true⟩, false⟩

/-- A renderable that lacks a `MeshRenderer` component. -/
def goNoRenderer : GameObject := ⟨some ⟨some ⟨12⟩, true⟩, none, false⟩

/-- A renderable whose mesh filter has a null mesh. -/
def goNoMesh : GameObject := ⟨some ⟨none, true⟩, some ⟨some ⟨7, 1⟩, true, true⟩, false⟩

/-- A renderable whose mesh renderer has a null material. -/
def goNoMaterial : GameObject := ⟨some ⟨some ⟨12⟩, true⟩, some ⟨none, true, true⟩, false⟩

/-- C4 evaluated at the failing inputs: an object lacking a mesh filter is
dereferenced (null-pointer error) by both the geometry-buffer and the
shadow-depth pass bodies, and an object lacking a mesh renderer likewise;
only a missing mesh or missing material is skipped without error, contrary
to the claim (and to the source's own comment) that any missing component
is skipped. -/
theorem c4_missing_component_deref :
    gbufferStep 7 (fun _ => true) goNoFilter = Except.error () ∧
    gbufferStep 7 (fun _ => true) goNoRenderer = Except.error () ∧
    shadowStep goNoFilter = Except.error () ∧
    shadowStep goNoRenderer = Except.error () ∧
    gbufferStep 7 (fun _ => true) goNoMesh = Except.ok false ∧
    gbufferStep 7 (fun _ => true) goNoMaterial = Except.ok false ∧
    shadowStep goNoMesh = Except.ok false :=
  ⟨rfl, rfl, rfl, rfl, rfl, rfl, rfl⟩

/-- C5 counterexample: right after `OnInitialize` on a freshly constructed
(point) light, the shadow-map array has 6 entries while the
projection-matrix array is still empty — the per-cascade arrays do not all
have equal length (`ShadowMap_Create`/`Destroy` never touch
`m_shadowMapsProjectionMatrix`; only a camera-moved `OnTick` of a
directional light fills it). -/
theorem c5_counterexample :
    (lightOnInitialize 1024 LightState.initial).shadowMaps.length = 6 ∧
    (lightOnInitialize 1024 LightState.initial).projMatrices.length = 0 := by
  constructor <;> rfl

/-- C5 amended: after light-type assignment or initialization, and under
any further sequence of operations, the shadow-map and frustum arrays (but
not the projection-matrix array) always have equal length, equal to the
cascade count fixed by the light type — 3 directional, 6 point, 1 spot —
which also equals the stored `m_shadowMapCount`. -/
theorem c5_amended :
    (∀ res s, ShadowArraysInv (lightOnInitialize res s)) ∧
    (∀ res t s, ShadowArraysInv (setLightType res t s)) ∧
    (∀ op s, ShadowArraysInv s → ShadowArraysInv (applyLightOp op s)) ∧
    (∀ ops res s, ShadowArraysInv (applyLightOps ops (lightOnInitialize res s))) :=
  ⟨fun res s => shadowArraysInv_create res s,
   fun res _ _ => shadowArraysInv_create res _,
   shadowArraysInv_applyLightOp,
   fun ops res s => shadowArraysInv_applyLightOps ops _ (shadowArraysInv_create res s)⟩

/-- Witness for C5 amended: the invariant survives an `OnTick` with light
and camera movement on a concrete directional light. -/
theorem c5_amended_witness :
    ShadowArraysInv (applyLightOp (LightOp.tick ⟨1, 0, 0⟩ ⟨0, 0, 0⟩ ⟨2, 0, 0⟩ ⟨2, 0, 0⟩)
      (setLightType 1024 LightType.Directional LightState.initial)) :=
  c5_amended.2.2.1 _ _ (by decide)

/-- A renderer state whose previous frame drew 5 meshes and whose scene no
longer has a camera. -/
def c6State : RendererState :=
  { sceneMainCamera := none, lightsDirectional := [], renderables := [],
    engineMode := EngineMode.Game, camera := none, directionalLight := none,
    meshesRendered := 3, renderedMeshesCount := 5 }

/-- C6 counterexample: after a soft-fail `Render()` (no camera bound),
`GetRenderedMeshesCount()` still returns the previous frame's 5, not zero —
the early returns skip `StopCalculatingStats`, so the published counter is
never reset. -/
theorem c6_counterexample :
    getRenderedMeshesCount (render (fun _ => 0) c6State).1 ≠ 0 := by
  decide

/-- C6 amended: for every frame in which `Render()` takes a soft-fail path
(no scene camera, or empty renderable list), `GetRenderedMeshesCount()`
afterwards returns exactly the value it had before the call (the last
completed frame's count), unchanged. -/
theorem c6_amended (f : List GameObject → Nat) (s : RendererState)
    (h : s.sceneMainCamera = none ∨ s.renderables = []) :
    getRenderedMeshesCount (render f s).1 = s.renderedMeshesCount := by
  rcases h with h | h
  · simp [render, acquirePrerequisites, getRenderedMeshesCount, h]
  · cases hc : s.sceneMainCamera with
    | none => simp [render, acquirePrerequisites, getRenderedMeshesCount, hc]
    | some cam => simp [render, acquirePrerequisites, getRenderedMeshesCount, hc, h]

/-- Witness for C6 amended: on the concrete no-camera state the count stays
at its previous value 5. -/
theorem c6_amended_witness :
    getRenderedMeshesCount (render (fun _ => 0) c6State).1 = 5 :=
  c6_amended (fun _ => 0) c6State (Or.inl rfl)

/-- C7: `IsInViewFrustrum` returns false exactly when the sphere centered
at the bounding center with radius `max (max |extent.x| |extent.y|)
|extent.z|` is classified `Outside` against the (possibly just rebuilt)
clip planes, and the planes are rebuilt if and only if the stored view or
projection matrix differs from the camera's current ones. -/
theorem c7_frustum_query (P : Type) (construct : Nat → Nat → ℚ → P)
    (checkSphere : P → V3 → ℚ → Intersection) (s : CullState P) (center extent : V3) :
    ((isInViewFrustrum construct checkSphere s center extent).2 = false ↔
      checkSphere (isInViewFrustrum construct checkSphere s center extent).1.frustrum.planes
        center (max (max |extent.x| |extent.y|) |extent.z|) = Intersection.Outside) ∧
    (s.frustrum.projMatrix = s.mProjection ∧ s.frustrum.viewMatrix = s.mView →
      (isInViewFrustrum construct checkSphere s center extent).1 = s) ∧
    (¬ (s.frustrum.projMatrix = s.mProjection ∧ s.frustrum.viewMatrix = s.mView) →
      (isInViewFrustrum construct checkSphere s center extent).1.frustrum =
        ⟨s.mProjection, s.mView, construct s.mProjection s.mView s.farPlane⟩) := by
  by_cases h : s.frustrum.projMatrix ≠ s.mProjection ∨ s.frustrum.viewMatrix ≠ s.mView
  · refine ⟨?_, ?_, ?_⟩
    · simp only [isInViewFrustrum, if_pos h]
      split <;> simp_all
    · intro hcon
      rcases h with h | h
      · exact absurd hcon.1 h
      · exact absurd hcon.2 h
    · intro _
      simp only [isInViewFrustrum, if_pos h]
  · have heq : s.frustrum.projMatrix = s.mProjection ∧ s.frustrum.viewMatrix = s.mView := by
      push_neg at h
      exact h
    refine ⟨?_, ?_, ?_⟩
    · simp only [isInViewFrustrum, if_neg h]
      split <;> simp_all
    · intro _
      simp only [isInViewFrustrum, if_neg h]
    · intro hne
      exact absurd heq hne

/-- A concrete culling state whose cached frustum matches the camera's
matrices. -/
def cull0 : CullState Unit :=
  { frustrum := ⟨0, 0, ()⟩, mProjection := 0, mView := 0, farPlane := 100 }

/-- Witness for C7: with a classifier that always answers `Outside`, the
query returns false and leaves the matching cached frustum untouched. -/
theorem c7_frustum_query_witness :
    (isInViewFrustrum (fun _ _ _ => ()) (fun _ _ _ => Intersection.Outside)
        cull0 ⟨0, 0, 0⟩ ⟨1, 2, 3⟩).2 = false ∧
    (isInViewFrustrum (fun _ _ _ => ()) (fun _ _ _ => Intersection.Outside)
        cull0 ⟨0, 0, 0⟩ ⟨1, 2, 3⟩).1 = cull0 :=
  ⟨(c7_frustum_query Unit _ _ cull0 _ _).1.mpr rfl,
   (c7_frustum_query Unit _ _ cull0 _ _).2.1 ⟨rfl, rfl⟩⟩

/-- C10: `SetCastShadows(v)` always leaves the stored cast-shadows flag
equal to `v`; with `v = true` it returns immediately (the state is exactly
the old one with the flag overwritten, no shadow-map recreation) regardless
of the previous flag, and with `v = false` it forces a shadow-map
recreation (fresh render textures are allocated). -/
theorem c10_set_cast_shadows (res : Nat) (v : Bool) (s : LightState) :
    (setCastShadows res v s).castShadows = v ∧
    (v = true → setCastShadows res v s = { s with castShadows := true }) ∧
    (v = false →
      setCastShadows res v s = shadowMapCreate res true { s with castShadows := false } ∧
      (setCastShadows res v s).nextTexId = s.nextTexId + cascadeCount s.lightType) := by
  cases v with
  | true =>
    refine ⟨rfl, fun _ => rfl, ?_⟩
    intro h
    exact absurd h (by decide)
  | false =>
    refine ⟨rfl, ?_, fun _ => ⟨rfl, rfl⟩⟩
    intro h
    exact absurd h (by decide)

/-- Witness for C10: `SetCastShadows(true)` on the initial light only
overwrites the flag. -/
theorem c10_set_cast_shadows_witness :
    (true = true) ∧
    setCastShadows 512 true LightState.initial =
      { LightState.initial with castShadows := true } :=
  ⟨rfl, (c10_set_cast_shadows 512 true LightState.initial).2.1 rfl⟩

end Directus
